import Mathlib

/-!
Verification of the nrf52-radio-rs firmware against its design spec.

This file shallowly embeds the core components of `src/bin/sensor_reading.rs`
and `src/bin/ble_beacon.rs`:

* the byte framer of `gnss_notify_task` (fixed 82-byte NMEA buffer, CR LF
  terminator detection, idle boundary on zero-length reads);
* the `CurrentTime` struct, its `from` and `to_bytes` (a `bytemuck`
  checked cast of the `repr(C)` struct on the little-endian nRF52 target);
* the GATT event dispatcher loop of `gatt_events_task`;
* the advertise/serve supervisor loop of `run_ble`;
* the beacon payload encoder `make_adv_payload` and update loop of
  `ble_beacon.rs`.

The NMEA sentence decoder is provided by the external `nmea` crate, whose
code is not part of this repository; it is modelled from the spec (§4.2,
§6: `$`-prefixed, comma-separated fields, `*` + two-hex-digit XOR checksum,
CR LF terminated; ZDA carries hhmmss.ss, day, month, year).

Bytes are modelled as `Nat` values below 256; machine-integer casts are
explicit `% 2^w` operations.
-/

namespace Nrf52Radio

/-! ## Byte framer (`gnss_notify_task`, sensor_reading.rs lines 186-221)

The Rust loop keeps `nmea_buf : [u8; 82]` and `buf_idx : usize`, and each
iteration performs `read_until_idle(&mut nmea_buf[buf_idx..buf_idx+1])`.
One loop iteration consumes one read result: `Ok(0)` (idle, no byte),
`Ok(1)` with the received byte, or `Err`.  The slice expression itself
panics when `buf_idx + 1 > 82`; there is no overflow check (the source
marks this with `// TODO: Handle case when buf_idx out of bounds.`). -/

/-- Result of one `read_until_idle` call on a 1-byte slice. -/
inductive ReadRes : Type
  | ok0 : ReadRes
  | ok1 (b : Nat) : ReadRes
  | err : ReadRes
deriving DecidableEq, Repr

/-- Framer state: the 82-byte buffer (stale contents persist across frames,
exactly as in the Rust array) and the fill index. -/
structure FramerState : Type where
  buf : List Nat
  bufIdx : Nat
deriving DecidableEq, Repr

/-- Initial state: `let mut nmea_buf = [0u8; 82]; let mut buf_idx = 0;`. -/
def initFramer : FramerState := ⟨List.replicate 82 0, 0⟩

/-- Outcome of one framer loop iteration.  `panic` models a Rust panic
(out-of-bounds slice); `ret` models the function returning normally — the
Rust loop has no `break`, so no branch below produces it, but the
constructor exists so that non-termination is a provable fact rather than
a typing artifact.  `cont` carries the next state and the frame (if any)
handed to `nmea::parse_bytes` this iteration. -/
inductive StepOut : Type
  | panic : StepOut
  | ret : StepOut
  | cont (s : FramerState) (frame : Option (List Nat)) : StepOut
deriving DecidableEq, Repr

/-- One iteration of the `loop` in `gnss_notify_task`, translated from the
source.  The guard mirrors the slice `&mut nmea_buf[buf_idx..buf_idx+1]`,
which panics unless `buf_idx + 1 ≤ 82`.  On `Ok(rx_len)` the code checks
`buf_idx > 0 && nmea_buf[buf_idx-1..buf_idx+1] == *"\r\n".as_bytes()`;
if `rx_len == 0 ||` that check holds it parses `nmea_buf[..buf_idx+1]`
and resets `buf_idx = 0` (buffer bytes are not cleared), else it
increments `buf_idx`.  On `Err` it resets `buf_idx = 0`. -/
def gnssStep (s : FramerState) (r : ReadRes) : StepOut :=
  if s.bufIdx + 1 > 82 then .panic
  else
    match r with
    | .err => .cont ⟨s.buf, 0⟩ none
    | .ok0 =>
        .cont ⟨s.buf, 0⟩ (some (s.buf.take (s.bufIdx + 1)))
    | .ok1 b =>
        let buf' := s.buf.set s.bufIdx b
        let terminated := decide (0 < s.bufIdx) &&
          decide (buf'.getD (s.bufIdx - 1) 0 = 13) && decide (buf'.getD s.bufIdx 0 = 10)
        if terminated then .cont ⟨buf', 0⟩ (some (buf'.take (s.bufIdx + 1)))
        else .cont ⟨buf', s.bufIdx + 1⟩ none

/-- Run the framer over a list of read results, collecting the frames that
were handed to the decoder.  `none` means a panic occurred; `some` returns
the final state and the delivered frames (the loop itself never
returns). -/
def runFramer (s : FramerState) : List ReadRes → Option (FramerState × List (List Nat))
  | [] => some (s, [])
  | r :: rs =>
      match gnssStep s r with
      | .panic => none
      | .ret => none
      | .cont s' f =>
          match runFramer s' rs with
          | none => none
          | some (sEnd, frames) => some (sEnd, (f.toList) ++ frames)

/-! ## `CurrentTime` (sensor_reading.rs lines 57-91)

`#[derive(Clone, Copy, Pod, Zeroable)] #[repr(C)] struct CurrentTime`
holds `year: u16` followed by eight `u8` fields.  `CurrentTime::from`
builds it from a `chrono::NaiveDateTime` with `as u16` / `as u8` casts
(two's-complement truncation, i.e. reduction mod 2^16 / 2^8);
`CurrentTime::to_bytes` is `bytemuck::checked::try_cast::<_, [u8; 10]>`,
a byte-for-byte copy of the struct's in-memory representation on the
little-endian nRF52 target, which succeeds iff the struct's size is 10. -/

/-- Projection of `chrono::NaiveDateTime`: the accessor values used by
`CurrentTime::from`.  `year()` is an `i32`; the time/date accessors return
unsigned values. -/
structure NaiveDT : Type where
  year : Int
  month : Nat
  day : Nat
  hour : Nat
  minute : Nat
  second : Nat
deriving DecidableEq, Repr

/-- The `CurrentTime` struct; field values are the machine values of the
`u16`/`u8` fields. -/
structure CurrentTime : Type where
  year : Nat
  month : Nat
  day : Nat
  hours : Nat
  minutes : Nat
  seconds : Nat
  day_of_week : Nat
  fractions_256 : Nat
  adj_reason : Nat
deriving DecidableEq, Repr

/-- `CurrentTime::from(&NaiveDateTime)`: each accessor value is cast with
`as u16` / `as u8`; the three fields the protocol does not supply are set
to zero.  For an `i32` year, `as u16` yields `year mod 2^16` (unsigned
reading of the truncated two's-complement value). -/
def CurrentTime.from (dt : NaiveDT) : CurrentTime :=
  { year := (dt.year % 65536).toNat
    month := dt.month % 256
    day := dt.day % 256
    hours := dt.hour % 256
    minutes := dt.minute % 256
    seconds := dt.second % 256
    day_of_week := 0
    fractions_256 := 0
    adj_reason := 0 }

/-- `#[repr(C)]` layout: fold (size, align) pairs of the fields into the
struct's (size, align), aligning each field's offset up and rounding the
final size up to the struct alignment. -/
def alignUp (n a : Nat) : Nat := ((n + a - 1) / a) * a

/-- `(size, align)` of a `repr(C)` struct with the given field layouts. -/
def reprCLayout (fields : List (Nat × Nat)) : Nat × Nat :=
  let fold := fields.foldl (fun acc f => (alignUp acc.1 f.2 + f.1, max acc.2 f.2)) (0, 1)
  (alignUp fold.1 fold.2, fold.2)

/-- Field layouts of `CurrentTime`: one `u16` (size 2, align 2) and eight
`u8` (size 1, align 1). -/
def currentTimeFields : List (Nat × Nat) :=
  [(2, 2), (1, 1), (1, 1), (1, 1), (1, 1), (1, 1), (1, 1), (1, 1), (1, 1)]

/-- The in-memory bytes of a `CurrentTime` on the little-endian target:
`year` as two little-endian bytes followed by the eight `u8` fields.
Each byte is the field value reduced mod 256 (the identity on real
`u8`/`u16` contents). -/
def CurrentTime.to_bytes (c : CurrentTime) : List Nat :=
  [c.year % 256, c.year / 256 % 256, c.month % 256, c.day % 256, c.hours % 256,
   c.minutes % 256, c.seconds % 256, c.day_of_week % 256, c.fractions_256 % 256,
   c.adj_reason % 256]

/-- `bytemuck::checked::try_cast::<CurrentTime, [u8; 10]>`: the checked
cast succeeds (returning the representation bytes) iff the source size
equals the 10-byte target size; a `[u8; N]` target accepts any bit
pattern. -/
def CurrentTime.try_cast (c : CurrentTime) : Option (List Nat) :=
  if (reprCLayout currentTimeFields).1 = 10 then some c.to_bytes else none

/-- Parse the fixed 10-byte Current-Time layout of spec §6 back into its
fields: `year:u16` little-endian, then month, day, hours, minutes,
seconds, day_of_week, fraction_256, adjust_reason, one byte each. -/
def parseCurrentTime (bs : List Nat) : Option CurrentTime :=
  match bs with
  | [y0, y1, mo, d, h, mi, s, dow, fr, adj] =>
      some ⟨y0 + 256 * y1, mo, d, h, mi, s, dow, fr, adj⟩
  | _ => none

/-! ## Sentence decoder

`gnss_notify_task` decodes frames with `nmea::parse_bytes` from the
external `nmea` crate; that code is not part of this repository, so the
decoder is modelled from the spec (§4.2 and §6). -/

/-- Reject reasons of the decoder, per spec §4.2: distinguish bad framing
/ checksum errors and "recognized type, bad fields" from "unrecognized
type". -/
inductive RejectReason : Type
  | badFraming : RejectReason
  | checksumMismatch : RejectReason
  | unsupportedType : RejectReason
  | badFields : RejectReason
deriving DecidableEq, Repr

/-- ZDA sentence data: optional UTC time (hours, minutes, seconds),
day, month, year — optional because a receiver without a fix emits empty
fields. -/
structure ZdaData : Type where
  time : Option (Nat × Nat × Nat)
  day : Option Nat
  month : Option Nat
  year : Option Nat
deriving DecidableEq, Repr

/-- Decoded sentence record (the crate's `ParseResult`): a ZDA time datum,
or some other recognized sentence kind the adapter does not map. -/
inductive ParseResult : Type
  | ZDA (z : ZdaData) : ParseResult
  | other : ParseResult
deriving DecidableEq, Repr

/-- `ZdaData::utc_date_time()`: `Some` exactly when every component is
present and forms a valid calendar date/time. -/
def ZdaData.utc_date_time (z : ZdaData) : Option NaiveDT :=
  match z.time, z.day, z.month, z.year with
  | some (h, mi, s), some d, some mo, some y =>
      if 1 ≤ mo ∧ mo ≤ 12 ∧ 1 ≤ d ∧ d ≤ 31 ∧ h < 24 ∧ mi < 60 ∧ s < 60 then
        some ⟨(y : Int), mo, d, h, mi, s⟩
      else none
  | _, _, _, _ => none

/-- XOR of a byte list — the NMEA checksum over the bytes between `$`
and `*`. -/
def xorChecksum (bs : List Nat) : Nat := bs.foldl (· ^^^ ·) 0

/-- Value of one ASCII hex digit. -/
def hexDigitVal (c : Nat) : Option Nat :=
  if 48 ≤ c ∧ c ≤ 57 then some (c - 48)
  else if 65 ≤ c ∧ c ≤ 70 then some (c - 55)
  else if 97 ≤ c ∧ c ≤ 102 then some (c - 87)
  else none

/-- Value of one ASCII decimal digit. -/
def decDigitVal (c : Nat) : Option Nat :=
  if 48 ≤ c ∧ c ≤ 57 then some (c - 48) else none

/-- Parse a nonempty all-decimal-digit field into a number. -/
def parseNatField (bs : List Nat) : Option Nat :=
  match bs with
  | [] => none
  | _ => bs.foldl (fun acc c => acc.bind fun n => (decDigitVal c).map (n * 10 + ·)) (some 0)

/-- Parse an `hhmmss.ss` time-of-day field: six leading decimal digits;
any fractional-second suffix is ignored (the payload has no sub-second
field). -/
def parseZdaTime (bs : List Nat) : Option (Nat × Nat × Nat) :=
  match bs with
  | h1 :: h2 :: m1 :: m2 :: s1 :: s2 :: _ =>
      match decDigitVal h1, decDigitVal h2, decDigitVal m1,
            decDigitVal m2, decDigitVal s1, decDigitVal s2 with
      | some a, some b, some c, some d, some e, some f =>
          some (a * 10 + b, c * 10 + d, e * 10 + f)
      | _, _, _, _, _, _ => none
  | _ => none

/-- Drop a trailing CR LF terminator if present. -/
def stripCrlf (bs : List Nat) : List Nat :=
  let b1 := if bs.getLast? = some 10 then bs.dropLast else bs
  if b1.getLast? = some 13 then b1.dropLast else b1

/-- Modelled from the spec: the sentence decoder implemented by the
external `nmea` crate's `parse_bytes` (not in this repository).  Per §6:
an ASCII line, `$`-prefixed, comma-separated fields, `*` + two-hex-digit
XOR checksum suffix, terminated by CR LF; per §4.2 unknown or malformed
sentences yield a reject reason, distinguishing bad fields of a
recognized type from an unrecognized type.  A five-character talker/type
header whose last three characters are `ZDA` is the time-and-date
sentence with fields hhmmss.ss, day, month, year, local-zone hours,
local-zone minutes. -/
def parse_bytes (frame : List Nat) : Except RejectReason ParseResult :=
  match stripCrlf frame with
  | 36 :: body =>
      match body.splitOn 42 with
      | [data, [h1, h2]] =>
          match hexDigitVal h1, hexDigitVal h2 with
          | some v1, some v2 =>
              if xorChecksum data = 16 * v1 + v2 then
                match data.splitOn 44 with
                | header :: fields =>
                    if header.length = 5 ∧ header.drop 2 = [90, 68, 65] then
                      if fields.length = 6 then
                        .ok (.ZDA
                          { time := parseZdaTime (fields.getD 0 [])
                            day := parseNatField (fields.getD 1 [])
                            month := parseNatField (fields.getD 2 [])
                            year := parseNatField (fields.getD 3 []) })
                      else .error .badFields
                    else .error .unsupportedType
                | [] => .error .badFraming
              else .error .checksumMismatch
          | _, _ => .error .badFraming
      | _ => .error .badFraming
  | _ => .error .badFraming

/-! ## Record-to-notification adapter (`send_nmea_msg`, lines 141-170)

`send_nmea_msg` matches the decoded `ParseResult`: on `ZDA` it calls
`zda_data.utc_date_time()` and, if `Some`, notifies the Current Time
characteristic with `CurrentTime::from(&dt).to_bytes()`; every other
sentence kind only logs a warning (a Skip, no payload). -/

/-- The notification payload sent for one decoded record: `some bytes` is
a Current-Time notify, `none` a Skip. -/
def send_nmea_msg (pr : ParseResult) : Option (List Nat) :=
  match pr with
  | .ZDA z => (z.utc_date_time).map fun dt => (CurrentTime.from dt).to_bytes
  | .other => none

/-- Decode a frame and extract the ZDA UTC date-time, if any. -/
def decodeZdaDT (frame : List Nat) : Option NaiveDT :=
  match parse_bytes frame with
  | .ok (.ZDA z) => z.utc_date_time
  | _ => none

/-- Whether a frame decodes successfully (`if let Ok(valid_nmea)` in
`gnss_notify_task`). -/
def decodeOk (frame : List Nat) : Bool :=
  match parse_bytes frame with
  | .ok _ => true
  | .error _ => false

/-- Run the decode→adapt stage over a list of frames: each frame that
decodes `Ok` is adapted (producing a notify payload or a Skip); frames
that decode `Err` are rejected and processing continues with the next
frame. -/
def pipelineAdapted : List (List Nat) → List (Option (List Nat))
  | [] => []
  | f :: fs =>
      match parse_bytes f with
      | .error _ => pipelineAdapted fs
      | .ok pr => send_nmea_msg pr :: pipelineAdapted fs

/-- The notification payloads actually sent for a list of frames. -/
def pipelineNotifications : List (List Nat) → List (List Nat)
  | [] => []
  | f :: fs =>
      match parse_bytes f with
      | .error _ => pipelineNotifications fs
      | .ok pr =>
          match send_nmea_msg pr with
          | none => pipelineNotifications fs
          | some payload => payload :: pipelineNotifications fs

/-! ## GATT event dispatcher (`gatt_events_task`, lines 227-265)

The Rust loop matches each connection event: `Disconnected` breaks with
the reason; a `Gatt` event is matched (Read/Write to the battery-level
handle are logged, everything else falls through `_ => {}`) and then
`event.accept()` is called unconditionally — `Ok(reply)` sends the reply,
`Err` logs a warning; other connection events are ignored.  The function
returns only after the `Disconnected` break. -/

/-- One GATT event: the attribute handle it targets (Read/Write) or some
other GATT event kind. -/
inductive GattKind : Type
  | read (handle : Nat) : GattKind
  | write (handle : Nat) (data : List Nat) : GattKind
  | otherGatt : GattKind
deriving DecidableEq, Repr

/-- One connection event delivered by `conn.next()`.  `acceptOk` is
whether the stack's `event.accept()` call succeeds for this event. -/
inductive ConnEvent : Type
  | disconnected (reason : Nat) : ConnEvent
  | gatt (kind : GattKind) (acceptOk : Bool) : ConnEvent
  | otherConn : ConnEvent
deriving DecidableEq, Repr

/-- The handle a Read/Write GATT event targets. -/
def GattKind.handle? : GattKind → Option Nat
  | .read h => some h
  | .write h _ => some h
  | .otherGatt => none

/-- Result of running the dispatcher over a (prefix of the) event stream:
one reply entry per GATT event in order (`true` = reply sent, `false` =
`accept` failed and only a warning was logged), the number of
battery-level log lines, and the disconnect reason if one was reached
(`none` = the loop is still running). -/
structure DispatchResult : Type where
  replies : List Bool
  levelLogs : Nat
  disconnect : Option Nat
deriving DecidableEq, Repr

/-- The dispatcher loop of `gatt_events_task`, translated from the
source: `levelHandle` is `server.battery_service.level.handle`. -/
def gatt_events_task (levelHandle : Nat) : List ConnEvent → DispatchResult
  | [] => ⟨[], 0, none⟩
  | .disconnected r :: _ => ⟨[], 0, some r⟩
  | .gatt k ok :: rest =>
      let res := gatt_events_task levelHandle rest
      ⟨ok :: res.replies,
       (if k.handle? = some levelHandle then 1 else 0) + res.levelLogs,
       res.disconnect⟩
  | .otherConn :: rest => gatt_events_task levelHandle rest

/-- The expected reply sequence: one entry per GATT event delivered
before the first disconnect, carrying that event's `accept` outcome. -/
def gattAccepts : List ConnEvent → List Bool
  | [] => []
  | .disconnected _ :: _ => []
  | .gatt _ ok :: rest => ok :: gattAccepts rest
  | .otherConn :: rest => gattAccepts rest

/-- Reason of the first disconnect event in the stream, if any. -/
def firstDisconnect : List ConnEvent → Option Nat
  | [] => none
  | .disconnected r :: _ => some r
  | _ :: rest => firstDisconnect rest

/-- Whether `event.accept()` succeeds for an event (vacuously true for
non-GATT events). -/
def ConnEvent.acceptOk? : ConnEvent → Bool
  | .gatt _ ok => ok
  | _ => true

/-! ## Connection lifecycle supervisor (`run_ble`, lines 113-129)

`run_ble` loops forever: `advertise(..)` either yields a connection —
then `select(gatt_events_task, gnss_notify_task)` runs both per-connection
tasks and the loop continues as soon as either completes — or an error,
on which the code panics.  A panic inside either racing task also aborts
the program (defmt panic → undefined instruction).  The loop body has no
`break` or `return`. -/

/-- How one connection epoch ends: the dispatcher returned (after a
disconnect, with `Ok(())`), or the GNSS pipeline future completed. -/
inductive EpochEnd : Type
  | gattDone : EpochEnd
  | gnssDone : EpochEnd
deriving DecidableEq, Repr

/-- Outcome of one iteration of the `run_ble` loop: the advertise
succeeded and the epoch ended some way, one of the racing tasks
panicked, or advertising itself failed. -/
inductive AdvResult : Type
  | ok (e : EpochEnd) : AdvResult
  | taskPanic : AdvResult
  | advErr : AdvResult
deriving DecidableEq, Repr

/-- What `run_ble` is doing after consuming a finite prefix of loop
outcomes: still looping (back at advertising), stopped by a panic, or
returned normally. -/
inductive RunOutcome : Type
  | looping : RunOutcome
  | fatalPanic : RunOutcome
  | returned : RunOutcome
deriving DecidableEq, Repr

/-- The supervisor loop of `run_ble`, translated from the source: a
successful epoch falls through to the next `advertise`; an advertising
error (or a task panic) aborts the program; there is no other exit. -/
def run_ble : List AdvResult → RunOutcome
  | [] => .looping
  | .ok _ :: rest => run_ble rest
  | .taskPanic :: _ => .fatalPanic
  | .advErr :: _ => .fatalPanic

/-! ## Beacon variant (`ble_beacon.rs`)

`make_adv_payload` packs the `u32` update counter big-endian into bytes
0..4 and the elapsed milliseconds (`as_millis() as u32`) big-endian into
bytes 4..8.  The `beacon` task encodes the payload once, starts
advertising, then loops: every 10 ms it increments the counter
(wrapping), re-encodes, and calls `update_adv_data` — it never starts a
new advertising session. -/

/-- `u32::to_be_bytes` of a value already reduced mod 2^32. -/
def u32be (n : Nat) : List Nat :=
  [n / 2 ^ 24 % 256, n / 2 ^ 16 % 256, n / 2 ^ 8 % 256, n % 256]

/-- Big-endian value of a byte list. -/
def beVal (bs : List Nat) : Nat := bs.foldl (fun a b => a * 256 + b) 0

/-- `make_adv_payload`, translated from the source: counter big-endian in
the first four bytes, elapsed milliseconds (truncated to `u32`) big-endian
in the last four. -/
def make_adv_payload (elapsedMs updateCount : Nat) : List Nat :=
  u32be (updateCount % 2 ^ 32) ++ u32be (elapsedMs % 2 ^ 32)

/-- An advertising-session action of the beacon task. -/
inductive BeaconAction : Type
  | advertise (payload : List Nat) : BeaconAction
  | updateAdv (payload : List Nat) : BeaconAction
deriving DecidableEq, Repr

/-- The beacon task's action trace after `n` update ticks: one initial
`advertise` with counter 0, then one `update_adv_data` per tick with the
wrapping-incremented counter and the elapsed milliseconds at that tick
(`elapsed i` = elapsed ms when tick `i` fires). -/
def beaconTrace (elapsed : Nat → Nat) (n : Nat) : List BeaconAction :=
  .advertise (make_adv_payload (elapsed 0) 0) ::
    (List.range n).map fun i => .updateAdv (make_adv_payload (elapsed (i + 1)) ((i + 1) % 2 ^ 32))

/-- Whether a beacon action (re)starts an advertising session. -/
def BeaconAction.isAdvertise : BeaconAction → Bool
  | .advertise _ => true
  | .updateAdv _ => false

/-! ## Concrete inputs and helper lemmas -/

instance {ε α : Type} [DecidableEq ε] [DecidableEq α] : DecidableEq (Except ε α) :=
  fun x y =>
    match x, y with
    | .error e, .error f =>
        if h : e = f then .isTrue (by rw [h])
        else .isFalse (by intro hc; injection hc; contradiction)
    | .error _, .ok _ => .isFalse (by intro hc; injection hc)
    | .ok _, .error _ => .isFalse (by intro hc; injection hc)
    | .ok a, .ok b =>
        if h : a = b then .isTrue (by rw [h])
        else .isFalse (by intro hc; injection hc; contradiction)

/-- ASCII bytes of a string. -/
def strBytes (s : String) : List Nat := s.toList.map Char.toNat

/-- The spec §8 scenario sentence, exactly as written there (checksum
digits `6B`). -/
def zdaFrame6B : List Nat := strBytes "$GPZDA,201530.00,04,07,2023,00,00*6B\r\n"

/-- The same sentence with the correct NMEA checksum: the XOR of the
bytes between `$` and `*` is 0x63. -/
def zdaFrame63 : List Nat := strBytes "$GPZDA,201530.00,04,07,2023,00,00*63\r\n"

theorem gatt_events_task_replies (lh : Nat) (events : List ConnEvent) :
    (gatt_events_task lh events).replies = gattAccepts events := by
  induction events with
  | nil => rfl
  | cons e rest ih =>
      cases e with
      | disconnected r => rfl
      | gatt k ok => simp [gatt_events_task, gattAccepts, ih]
      | otherConn => simp [gatt_events_task, gattAccepts, ih]

theorem gatt_events_task_disconnect (lh : Nat) (events : List ConnEvent) :
    (gatt_events_task lh events).disconnect = firstDisconnect events := by
  induction events with
  | nil => rfl
  | cons e rest ih =>
      cases e with
      | disconnected r => rfl
      | gatt k ok => simp [gatt_events_task, firstDisconnect, ih]
      | otherConn => simp [gatt_events_task, firstDisconnect, ih]

theorem gattAccepts_all_true (events : List ConnEvent)
    (h : ∀ e ∈ events, e.acceptOk? = true) :
    ∀ b ∈ gattAccepts events, b = true := by
  induction events with
  | nil => intro b hb; simp [gattAccepts] at hb
  | cons e rest ih =>
      intro b hb
      cases e with
      | disconnected r => simp [gattAccepts] at hb
      | gatt k ok =>
          simp only [gattAccepts, List.mem_cons] at hb
          rcases hb with hb | hb
          · subst hb; exact h _ (List.mem_cons_self _ _)
          · exact ih (fun e he => h e (List.mem_cons_of_mem _ he)) b hb
      | otherConn =>
          exact ih (fun e he => h e (List.mem_cons_of_mem _ he)) b
            (by simpa [gattAccepts] using hb)

theorem firstDisconnect_mem (events : List ConnEvent) (r : Nat)
    (h : firstDisconnect events = some r) :
    ConnEvent.disconnected r ∈ events := by
  induction events with
  | nil => simp [firstDisconnect] at h
  | cons e rest ih =>
      cases e with
      | disconnected r0 =>
          simp only [firstDisconnect, Option.some.injEq] at h
          subst h; exact List.mem_cons_self _ _
      | gatt k ok => exact List.mem_cons_of_mem _ (ih (by simpa [firstDisconnect] using h))
      | otherConn => exact List.mem_cons_of_mem _ (ih (by simpa [firstDisconnect] using h))

/-- `true` iff the supervisor-loop outcome is a successful epoch. -/
def AdvResult.isOk : AdvResult → Bool
  | .ok _ => true
  | .taskPanic => false
  | .advErr => false

theorem run_ble_ne_returned (outs : List AdvResult) : run_ble outs ≠ RunOutcome.returned := by
  induction outs with
  | nil => simp [run_ble]
  | cons o rest ih =>
      cases o with
      | ok e => simpa [run_ble] using ih
      | taskPanic => simp [run_ble]
      | advErr => simp [run_ble]

theorem gnssStep_ne_ret (s : FramerState) (r : ReadRes) : gnssStep s r ≠ StepOut.ret := by
  unfold gnssStep
  cases r <;> simp only [] <;> split <;> try simp
  split <;> simp

theorem pipelineAdapted_length (frames : List (List Nat)) :
    (pipelineAdapted frames).length = frames.countP decodeOk := by
  induction frames with
  | nil => rfl
  | cons f fs ih =>
      rw [List.countP_cons]
      cases hp : parse_bytes f with
      | error e =>
          have hd : decodeOk f = false := by simp [decodeOk, hp]
          simp [pipelineAdapted, hp, hd, ih]
      | ok pr =>
          have hd : decodeOk f = true := by simp [decodeOk, hp]
          simp [pipelineAdapted, hp, hd, ih]

/-! ## Claim theorems -/

/-- Claim C1 (evaluation of the code at the failing input).  The claim
says a buffer filled to its 82-byte capacity without a terminator yields
an Overflow report and an empty buffer.  The code instead panics: after
82 non-terminator bytes (here 0x41 `A`) the fill index is 82 and no frame
or overflow signal has been delivered, and the very next read slices
`nmea_buf[82..83]`, which is out of bounds — `runFramer` returns `none`
(panic), never an overflow report. -/
theorem c1_framer_overflow_panics :
    runFramer initFramer (List.replicate 82 (ReadRes.ok1 65)) =
      some (⟨List.replicate 82 65, 82⟩, []) ∧
    runFramer initFramer (List.replicate 83 (ReadRes.ok1 65)) = none := by
  decide

/-- Claim C2 counterexample: the spec's scenario sentence
`$GPZDA,201530.00,04,07,2023,00,00*6B` carries checksum digits `6B`,
but the XOR of the bytes between `$` and `*` is 0x63, so the decoder
rejects the frame with a checksum mismatch and the pipeline sends no
notification at all — in particular not the claimed payload. -/
theorem c2_spec_sentence_rejected :
    parse_bytes zdaFrame6B = Except.error RejectReason.checksumMismatch ∧
    pipelineNotifications [zdaFrame6B] = [] ∧
    pipelineNotifications [zdaFrame6B] ≠
      [[0x07, 0xE7, 0x07, 0x04, 0x14, 0x0F, 0x1E, 0x00, 0x00, 0x00]] ∧
    xorChecksum ((zdaFrame6B.drop 1).takeWhile (fun b => b != 42)) = 0x63 := by
  decide

/-- Claim C2 as amended: with the correct checksum digits `63`, the
decoder yields the ZDA time datum 2023-07-04 20:15:30 and the adapter
notifies exactly the 10-byte Current-Time payload — with the `u16` year
2023 = 0x07E7 in little-endian byte order (the in-memory order of the
`repr(C)` struct on the nRF52), i.e. `[0xE7, 0x07, ...]`. -/
theorem c2_zda_scenario_payload :
    decodeZdaDT zdaFrame63 = some ⟨2023, 7, 4, 20, 15, 30⟩ ∧
    pipelineNotifications [zdaFrame63] =
      [[0xE7, 0x07, 0x07, 0x04, 0x14, 0x0F, 0x1E, 0x00, 0x00, 0x00]] := by
  decide

/-- Claim C3: provided the stack's `accept` call succeeds for every
event, the dispatcher produces exactly one reply per GATT event (Read,
Write, or any other kind — independent of whether the attribute is the
specially recognized battery-level handle), in delivery order, stopping
at the first disconnect; and the loop returns exactly when a
PeerDisconnected event arrives (its result is the first disconnect
reason, `none` meaning the loop is still running). -/
theorem c3_dispatcher_replies_each_event (lh : Nat) (events : List ConnEvent)
    (h : ∀ e ∈ events, e.acceptOk? = true) :
    (gatt_events_task lh events).replies = gattAccepts events ∧
    (∀ b ∈ (gatt_events_task lh events).replies, b = true) ∧
    (gatt_events_task lh events).disconnect = firstDisconnect events := by
  refine ⟨gatt_events_task_replies lh events, ?_, gatt_events_task_disconnect lh events⟩
  rw [gatt_events_task_replies]
  exact gattAccepts_all_true events h

/-- Events exercising claim C3: reads and writes to the recognized
battery-level handle (5) and to unrecognized handles, a non-Read/Write
GATT event, a non-GATT connection event, a disconnect, and a trailing
event after the disconnect (which must not be processed). -/
def c3Events : List ConnEvent :=
  [ConnEvent.gatt (GattKind.read 5) true, ConnEvent.gatt (GattKind.write 99 [1]) true,
   ConnEvent.gatt GattKind.otherGatt true, ConnEvent.otherConn,
   ConnEvent.disconnected 19, ConnEvent.gatt (GattKind.read 7) true]

/-- Witness for claim C3 at a concrete event stream. -/
theorem c3_dispatcher_replies_each_event_witness :
    (gatt_events_task 5 c3Events).replies = gattAccepts c3Events ∧
    (∀ b ∈ (gatt_events_task 5 c3Events).replies, b = true) ∧
    (gatt_events_task 5 c3Events).disconnect = firstDisconnect c3Events :=
  c3_dispatcher_replies_each_event 5 c3Events (by decide)

/-- Claim C4: ending a connection epoch (either racing task completing)
returns the supervisor to the advertising step with the loop intact; a
run consisting solely of successful epochs leaves the supervisor still
looping (advertising again); and `run_ble` has no normal-return exit
path — the only way out of the loop is a fatal panic. -/
theorem c4_supervisor_returns_to_advertising (e : EpochEnd) (rest outs : List AdvResult)
    (h : ∀ o ∈ outs, o.isOk = true) :
    run_ble (AdvResult.ok e :: rest) = run_ble rest ∧
    run_ble outs = RunOutcome.looping ∧
    (∀ l : List AdvResult, run_ble l ≠ RunOutcome.returned) := by
  refine ⟨rfl, ?_, run_ble_ne_returned⟩
  induction outs with
  | nil => rfl
  | cons o os ih =>
      cases o with
      | ok ee =>
          exact ih (fun x hx => h x (List.mem_cons_of_mem _ hx))
      | taskPanic =>
          exact absurd (h _ (List.mem_cons_self _ _)) (by simp [AdvResult.isOk])
      | advErr =>
          exact absurd (h _ (List.mem_cons_self _ _)) (by simp [AdvResult.isOk])

/-- Witness for claim C4 at concrete epoch outcomes. -/
theorem c4_supervisor_returns_to_advertising_witness :
    run_ble (AdvResult.ok EpochEnd.gattDone :: [AdvResult.ok EpochEnd.gnssDone]) =
      run_ble [AdvResult.ok EpochEnd.gnssDone] ∧
    run_ble [AdvResult.ok EpochEnd.gattDone, AdvResult.ok EpochEnd.gnssDone] =
      RunOutcome.looping ∧
    (∀ l : List AdvResult, run_ble l ≠ RunOutcome.returned) :=
  c4_supervisor_returns_to_advertising EpochEnd.gattDone [AdvResult.ok EpochEnd.gnssDone]
    [AdvResult.ok EpochEnd.gattDone, AdvResult.ok EpochEnd.gnssDone] (by decide)

/-- Claim C5: for every calendar date/time whose year is a nonnegative
value below 2^16 (and whose other fields satisfy the calendar bounds the
`chrono` accessors guarantee), encoding through `CurrentTime::from` and
the 10-byte layout and parsing the layout back reproduces year, month,
day, hours, minutes and seconds exactly, and the three reserved bytes of
the encoding are zero. -/
theorem c5_current_time_roundtrip (dt : NaiveDT)
    (h0 : 0 ≤ dt.year) (h1 : dt.year < 65536)
    (hm1 : 1 ≤ dt.month) (hm2 : dt.month ≤ 12)
    (hd1 : 1 ≤ dt.day) (hd2 : dt.day ≤ 31)
    (hh : dt.hour < 24) (hmi : dt.minute < 60) (hs : dt.second < 60) :
    parseCurrentTime ((CurrentTime.from dt).to_bytes) =
      some ⟨dt.year.toNat, dt.month, dt.day, dt.hour, dt.minute, dt.second, 0, 0, 0⟩ ∧
    ((CurrentTime.from dt).to_bytes).drop 7 = [0, 0, 0] := by
  have hy : dt.year % 65536 = dt.year := Int.emod_eq_of_lt h0 h1
  constructor
  · simp only [CurrentTime.from, CurrentTime.to_bytes, parseCurrentTime, hy,
      Option.some.injEq, CurrentTime.mk.injEq]
    refine ⟨?_, ?_, ?_, ?_, ?_, ?_, ?_, ?_, ?_⟩ <;> first | trivial | omega
  · simp [CurrentTime.from, CurrentTime.to_bytes]

/-- The scenario date/time 2023-07-04 20:15:30. -/
def c5dt : NaiveDT := ⟨2023, 7, 4, 20, 15, 30⟩

/-- Witness for claim C5 at the concrete date/time 2023-07-04 20:15:30. -/
theorem c5_current_time_roundtrip_witness :
    parseCurrentTime ((CurrentTime.from c5dt).to_bytes) =
      some ⟨c5dt.year.toNat, c5dt.month, c5dt.day, c5dt.hour, c5dt.minute, c5dt.second,
        0, 0, 0⟩ ∧
    ((CurrentTime.from c5dt).to_bytes).drop 7 = [0, 0, 0] :=
  c5_current_time_roundtrip c5dt (by decide) (by decide) (by decide) (by decide)
    (by decide) (by decide) (by decide) (by decide) (by decide)

/-- Claim C7: in any sequence of 150 frames of which exactly 3 fail to
decode, exactly 147 frames are adapted (each producing a Record notify or
a Skip) — the rejected frames produce no notification and do not stop
processing of the rest. -/
theorem c7_bad_frames_dont_halt (frames : List (List Nat))
    (hlen : frames.length = 150)
    (hbad : frames.countP (fun f => ! decodeOk f) = 3) :
    (pipelineAdapted frames).length = 147 ∧
    (∀ f ∈ frames, decodeOk f = false → pipelineNotifications [f] = []) := by
  constructor
  · have hsplit := List.length_eq_countP_add_countP decodeOk frames
    have hconv : (List.countP (fun a => decide ¬(decodeOk a = true)) frames) =
        frames.countP (fun f => ! decodeOk f) := by
      congr 1
      funext a
      cases decodeOk a <;> simp
    rw [pipelineAdapted_length]
    omega
  · intro f hf hfd
    cases hp : parse_bytes f with
    | error e => simp [pipelineNotifications, hp]
    | ok pr =>
        have : decodeOk f = true := by simp [decodeOk, hp]
        rw [this] at hfd
        exact absurd hfd (by simp)

/-- The 150-frame scenario: 147 well-formed ZDA sentences and 3 copies of
the checksum-corrupted sentence. -/
def c7Frames : List (List Nat) :=
  List.replicate 147 zdaFrame63 ++ List.replicate 3 zdaFrame6B

/-- Witness for claim C7 at the concrete 150-frame scenario. -/
theorem c7_bad_frames_dont_halt_witness :
    (pipelineAdapted c7Frames).length = 147 ∧
    (∀ f ∈ c7Frames, decodeOk f = false → pipelineNotifications [f] = []) :=
  c7_bad_frames_dont_halt c7Frames
    (by simp [c7Frames])
    (by
      have h63 : decodeOk zdaFrame63 = true := by decide
      have h6B : decodeOk zdaFrame6B = false := by decide
      simp [c7Frames, List.countP_append, List.countP_replicate, h63, h6B])

/-- Claim C8: the beacon's vendor payload is exactly 8 bytes — the
update counter big-endian in bytes 0..4 and the elapsed milliseconds
(truncated to `u32`) big-endian in bytes 4..8 — and the beacon's action
trace starts one advertising session and thereafter only pushes
re-encoded payloads via `update_adv_data` (the trace contains exactly one
`advertise` action), tick `i` carrying the wrapping-incremented counter
`i + 1`. -/
theorem c8_beacon_payload_and_updates (el : Nat → Nat) (n c m i : Nat) (hi : i < n) :
    (make_adv_payload m c).length = 8 ∧
    make_adv_payload m c = u32be (c % 2 ^ 32) ++ u32be (m % 2 ^ 32) ∧
    beVal ((make_adv_payload m c).take 4) = c % 2 ^ 32 ∧
    beVal ((make_adv_payload m c).drop 4) = m % 2 ^ 32 ∧
    (beaconTrace el n).countP BeaconAction.isAdvertise = 1 ∧
    (beaconTrace el n)[i + 1]? =
      some (BeaconAction.updateAdv (make_adv_payload (el (i + 1)) ((i + 1) % 2 ^ 32))) := by
  refine ⟨by simp [make_adv_payload, u32be], rfl, ?_, ?_, ?_, ?_⟩
  · have hc : c % 2 ^ 32 < 2 ^ 32 := Nat.mod_lt _ (by norm_num)
    simp only [make_adv_payload, u32be, beVal, List.take, List.cons_append,
      List.nil_append, List.foldl]
    omega
  · have hm : m % 2 ^ 32 < 2 ^ 32 := Nat.mod_lt _ (by norm_num)
    simp only [make_adv_payload, u32be, beVal, List.drop, List.cons_append,
      List.nil_append, List.foldl]
    omega
  · simp [beaconTrace, List.countP_cons, List.countP_map, Function.comp,
      BeaconAction.isAdvertise]
  · simp [beaconTrace, List.getElem?_map, List.getElem?_range hi]

/-- Witness for claim C8 at concrete counter, clock and tick values. -/
theorem c8_beacon_payload_and_updates_witness :
    (make_adv_payload 1000 7).length = 8 ∧
    make_adv_payload 1000 7 = u32be (7 % 2 ^ 32) ++ u32be (1000 % 2 ^ 32) ∧
    beVal ((make_adv_payload 1000 7).take 4) = 7 % 2 ^ 32 ∧
    beVal ((make_adv_payload 1000 7).drop 4) = 1000 % 2 ^ 32 ∧
    (beaconTrace (fun k => 10 * k) 3).countP BeaconAction.isAdvertise = 1 ∧
    (beaconTrace (fun k => 10 * k) 3)[1 + 1]? =
      some (BeaconAction.updateAdv
        (make_adv_payload ((fun k => 10 * k) (1 + 1)) ((1 + 1) % 2 ^ 32))) :=
  c8_beacon_payload_and_updates (fun k => 10 * k) 3 7 1000 1 (by decide)

/-- Claim C9: the checked cast behind `CurrentTime::to_bytes` always
succeeds with exactly the 10 representation bytes: the `repr(C)` layout
of `CurrentTime` has size 10 and alignment 2, and the field sizes sum to
the struct size (no padding), so the `expect` branch is unreachable. -/
theorem c9_current_time_cast_total (c : CurrentTime) :
    CurrentTime.try_cast c = some c.to_bytes ∧
    c.to_bytes.length = 10 ∧
    reprCLayout currentTimeFields = (10, 2) ∧
    (currentTimeFields.map Prod.fst).sum = (reprCLayout currentTimeFields).1 := by
  refine ⟨?_, rfl, by decide, by decide⟩
  unfold CurrentTime.try_cast
  rw [if_pos (by decide)]

/-- Claim C10: the GNSS framing/decoding pipeline loop has no normal
return — no step of `gnss_notify_task` produces a `ret` outcome — so a
connection epoch can only end non-fatally through the dispatcher, which
reports a disconnect reason only when a PeerDisconnected event actually
occurs in its event stream. -/
theorem c10_pipeline_never_returns (s : FramerState) (r : ReadRes)
    (lh reason : Nat) (events : List ConnEvent)
    (hd : (gatt_events_task lh events).disconnect = some reason) :
    gnssStep s r ≠ StepOut.ret ∧ ConnEvent.disconnected reason ∈ events :=
  ⟨gnssStep_ne_ret s r,
   firstDisconnect_mem events reason
     ((gatt_events_task_disconnect lh events).symm.trans hd)⟩

/-- Witness for claim C10 at a concrete framer step and event stream. -/
theorem c10_pipeline_never_returns_witness :
    gnssStep initFramer (ReadRes.ok1 65) ≠ StepOut.ret ∧
    ConnEvent.disconnected 8 ∈ [ConnEvent.disconnected 8] :=
  c10_pipeline_never_returns initFramer (ReadRes.ok1 65) 0 8
    [ConnEvent.disconnected 8] (by decide)

/-- Claim C6 counterexample: from a fresh framer (nothing accumulated), a
zero-length read delivers the frame `[0]` — one byte of stale buffer
content — and not the empty frame the claim requires. -/
theorem c6_idle_frame_not_empty :
    runFramer initFramer [ReadRes.ok0] =
      some (⟨List.replicate 82 0, 0⟩, [[0]]) ∧
    ([[0]] : List (List Nat)) ≠ [[]] := by
  decide

/-- Claim C6 as amended: a zero-length read (idle boundary) makes the
framer deliver `buf[0 .. fill+1]` — the accumulated bytes plus one
trailing byte of stale buffer content — and reset the fill index to 0
(buffer bytes are kept); with nothing accumulated this is a 1-byte stale
frame, never an empty one. -/
theorem c6_idle_delivers_fill_plus_one (s : FramerState) (h : s.bufIdx + 1 ≤ 82) :
    gnssStep s ReadRes.ok0 =
      StepOut.cont ⟨s.buf, 0⟩ (some (s.buf.take (s.bufIdx + 1))) := by
  unfold gnssStep
  rw [if_neg (by omega)]

/-- Witness for claim C6's amended statement at the fresh framer state. -/
theorem c6_idle_delivers_fill_plus_one_witness :
    gnssStep initFramer ReadRes.ok0 =
      StepOut.cont ⟨initFramer.buf, 0⟩ (some (initFramer.buf.take (initFramer.bufIdx + 1))) :=
  c6_idle_delivers_fill_plus_one initFramer (by decide)

end Nrf52Radio
